import Mathlib

/-!
Verification development for the event-dispatch core of the python-agent
repository (`cattle/agent/event.py`, `cattle/progress.py`).

The Python code is shallowly embedded: the stream-read loop of
`EventClient._run` becomes a step function on an explicit counter state,
driven by oracles for the queue-full outcome of each non-blocking `put`
and for the liveness check; the worker loop body of `_worker_main`
becomes a function of the decode/execute/publish outcomes of one item;
the liveness helpers `_check_ts` / `_should_run` become explicit global
state passing.  External collaborators that raise exceptions are modelled
by `Except` / oracle parameters.
-/

namespace Cattle

/-! ## Heartbeat classification (`'"ping' in line`, event.py line 180) -/

/-- `line.strip()`: drop leading and trailing whitespace, as a character
list. -/
def pyStrip (line : String) : List Char :=
  ((line.data.dropWhile Char.isWhitespace).reverse.dropWhile
    Char.isWhitespace).reverse

/-- `hasSub needle hay` is Python's substring containment `needle in hay`
on character lists. -/
def hasSub (needle : List Char) (hay : List Char) : Bool :=
  match hay with
  | [] => needle.isEmpty
  | _ :: tl => needle.isPrefixOf hay || hasSub needle tl

/-- `isPing l` embeds `ping = '"ping' in line` from `EventClient._run`,
on the stripped line. -/
def isPing (l : List Char) : Bool :=
  hasSub ("\"ping".data) l

/-! ## Configuration values consumed by the read loop
(`Config.max_dropped_requests()`, `Config.max_dropped_ping()`). -/

structure Config where
  max_dropped_requests : Nat
  max_dropped_ping : Nat
deriving DecidableEq

/-- The two mutable counters local to `EventClient._run`:
`drop_count` and `ping_drop` (event.py lines 169-170). -/
structure LoopState where
  dropCount : Nat
  ping_drop : Nat
deriving DecidableEq

/-- Which queue a successful non-blocking `put` targeted. -/
inductive Route where
  | ping
  | data
deriving DecidableEq

/-- Result of one iteration of the `for line in r.iter_lines(...)` body:
the updated counters, the queue that received the line (when the `put`
succeeded), and whether the loop `break`s after this line. -/
structure StepOut where
  st : LoopState
  enq : Option Route
  brk : Bool
deriving DecidableEq

/-- One iteration of the stream-read loop of `EventClient._run`
(event.py lines 177-203).  `full` is the oracle for whether the targeted
queue raises `Full` on the non-blocking `put` (queue occupancy depends on
the concurrent workers); `alive` is the oracle for `_should_run(ppid)`
evaluated after the line is processed. -/
def readStep (cfg : Config) (st : LoopState) (line : String)
    (full : Bool) (alive : Bool) : StepOut :=
  let l := pyStrip line
  let ping := isPing l
  if 0 < l.length then
    if full then
      -- except Full: drop_count += 1; max = max_dropped_requests;
      -- if ping: ping_drop += 1; max = max_dropped_ping
      let drop := st.dropCount + 1
      let pd := if ping then st.ping_drop + 1 else st.ping_drop
      let mx := if ping then cfg.max_dropped_ping else cfg.max_dropped_requests
      if drop > mx then
        ⟨⟨drop, pd⟩, none, true⟩
      else
        ⟨⟨drop, pd⟩, none, !alive⟩
    else
      if ping then
        -- self._ping_queue.put(line, block=False); ping_drop = 0
        ⟨⟨st.dropCount, 0⟩, some .ping, !alive⟩
      else
        -- self._queue.put(line, block=False)
        ⟨st, some .data, !alive⟩
  else
    ⟨st, none, !alive⟩

/-- The read loop over a finite stream of lines, each paired with its
queue-full and liveness oracle values; stops early when an iteration
`break`s, and returns the final counters. -/
def readRun (cfg : Config) (st : LoopState) :
    List (String × Bool × Bool) → LoopState
  | [] => st
  | (line, full, alive) :: rest =>
    let r := readStep cfg st line full alive
    if r.brk then r.st else readRun cfg r.st rest

/-! ## Liveness (`_check_ts`, `_should_run`, event.py lines 42-63) -/

/-- The process-wide global `_STAMP_TS`. -/
structure LiveState where
  stampTS : Option Nat
deriving DecidableEq

/-- `_check_ts()` as explicit state passing.  `obs` is the marker file
observation at this call: `none` when `os.path.exists(stamp_file)` is
false, `some ts` when the file exists with modification time `ts`.
Returns the boolean result and the updated global. -/
def check_ts (st : LiveState) (obs : Option Nat) : Bool × LiveState :=
  match obs with
  | none => (true, st)
  | some ts =>
    match st.stampTS with
    | none => (true, ⟨some ts⟩)
    | some c => (decide (c = ts), st)

/-- A sequence of `_check_ts()` calls in one process: the list of results
and the final global state. -/
def checkRun (st : LiveState) : List (Option Nat) → List Bool × LiveState
  | [] => ([], st)
  | o :: os =>
    let r := check_ts st o
    let rest := checkRun r.2 os
    (r.1 :: rest.1, rest.2)

/-- `_should_run(pid)`.  `pid` is the optional parent pid; `procAlive` is
the oracle for `os.path.exists('/proc/%s' % pid)`. -/
def should_run (st : LiveState) (obs : Option Nat) (pid : Option Nat)
    (procAlive : Bool) : Bool × LiveState :=
  let r := check_ts st obs
  if !r.1 then (false, r.2)
  else
    match pid with
    | none => (true, r.2)
    | some _ => (procAlive, r.2)

/-! ## Requests and Responses (the marshaller/executor/publisher boundary) -/

/-- A decoded Request: `req.id` and `req.name` are the fields the worker
loop reads. -/
structure Request where
  id : String
  name : String
deriving DecidableEq

/-- A Response dict as manipulated by the worker and the progress helper:
a reply key plus the `transitioning*` fields, and an optional data
payload which is either opaque caller data or a nested Response (the
progress helper wraps a reply inside a reply). -/
inductive Resp where
  | mk (replyTo : String) (transitioning : Option String)
      (tMessage : Option String) (tInternalMessage : Option String)
      (tProgress : Option Nat) (dta : Option (String ⊕ Resp))

/-- `resp["transitioning"] = t` -/
def Resp.setTransitioning : Resp → String → Resp
  | .mk k _ m im p d, t => .mk k (some t) m im p d

/-- `resp["transitioningMessage"] = m` -/
def Resp.setTMessage : Resp → String → Resp
  | .mk k t _ im p d, m => .mk k t (some m) im p d

/-- `resp["transitioningInternalMessage"] = im` -/
def Resp.setTInternalMessage : Resp → String → Resp
  | .mk k t m _ p d, im => .mk k t m (some im) p d

/-- `resp["transitioningProgress"] = p` -/
def Resp.setTProgress : Resp → Option Nat → Resp
  | .mk k t m im _ d, p => .mk k t m im p d

/-- Modelled from the spec: `utils.reply` lives in `cattle/utils.py`,
which is not under src/.  Per the spec, a Response is "a reply keyed to
the originating Request's identifier" carrying an optional data payload
and no transition status of its own, so `reply req d` builds exactly
that. -/
def reply (req : Request) (d : Option (String ⊕ Resp)) : Resp :=
  .mk req.id none none none none d

/-! ## Worker loop body (`_worker_main`, event.py lines 73-119) -/

/-- Faults the external executor can raise: the recoverable
lock-contention fault `FailedToLock` (carrying its message text) or any
other exception (carrying its description). -/
inductive Fault where
  | failedToLock (desc : String)
  | unknown (desc : String)
deriving DecidableEq

/-- Outcome of one pass of the `while True` body of `_worker_main`:
continue looping, `break` out of the loop, or an exception escaping the
loop (and `_worker_main` itself, which has no further handler). -/
inductive IterResult where
  | cont
  | brk
  | crash
deriving DecidableEq

/-- One worker-iteration outcome: loop control, the responses handed to
`publisher.publish` successfully, and the `log.info` lines emitted. -/
structure IterOut where
  res : IterResult
  published : List Resp
  infoLog : List String

/-- One pass of the `while True` body of `_worker_main`.  Oracles:
`item` is the `queue.get(True, 5)` outcome (`none` = `Empty` timeout);
`decodeRes` is `marshaller.from_string(line)` (failure = malformed
input, an unknown-class exception raised before `req` is set);
`execRes` is `agent.execute(req)` (`none` response means nothing to
publish); `publishFails` tells whether `publisher.publish(resp)` on the
success path raises (with description `pubFaultDesc`); `errPublishFails`
tells whether the `publisher.publish` inside the `except Exception`
handler raises; `errorId` is the generated `uuid.uuid4()` text; `alive`
is the `_should_run(ppid)` oracle for this pass. -/
def workerIter (item : Option String) (decodeRes : Except String Request)
    (execRes : Except Fault (Option Resp)) (pubFaultDesc : String)
    (publishFails : Bool) (errPublishFails : Bool)
    (errorId : String) (alive : Bool) : IterOut :=
  match item with
  | none =>
    -- except Empty: if not _should_run(ppid): break
    if alive then ⟨.cont, [], []⟩ else ⟨.brk, [], []⟩
  | some _ =>
    match decodeRes with
    | .error _ =>
      -- marshaller raised before `req` was assigned: except Exception
      -- with req = None, so no reply is synthesized either way
      if alive then ⟨.cont, [], []⟩ else ⟨.brk, [], []⟩
    | .ok req =>
      match execRes with
      | .error (.failedToLock d) =>
        -- except FailedToLock: log.info("%s for %s", e, req.name)
        if alive then ⟨.cont, [], [d ++ " for " ++ req.name]⟩
        else ⟨.brk, [], [d ++ " for " ++ req.name]⟩
      | .error (.unknown d) =>
        -- except Exception with req set
        if alive then
          let resp := ((reply req none).setTransitioning "error").setTInternalMessage
            (errorId ++ " : " ++ d)
          if errPublishFails then ⟨.crash, [], []⟩ else ⟨.cont, [resp], []⟩
        else ⟨.brk, [], []⟩
      | .ok none => ⟨.cont, [], []⟩
      | .ok (some resp) =>
        if publishFails then
          -- publish raised: caught by except Exception with req set
          if alive then
            let eresp := ((reply req none).setTransitioning "error").setTInternalMessage
              (errorId ++ " : " ++ pubFaultDesc)
            if errPublishFails then ⟨.crash, [], []⟩ else ⟨.cont, [eresp], []⟩
          else ⟨.brk, [], []⟩
        else ⟨.cont, [resp], []⟩

/-! ## Progress reporting (`EventProgress.update`, progress.py lines 14-30) -/

/-- The state of an `EventProgress` instance: the originating request and
the optional parent request. -/
structure ProgressCtx where
  req : Request
  parent : Option Request

/-- The Response composed by `EventProgress.update(msg, progress, data)`
just before publishing: the child reply, wrapped again keyed to the
parent when a parent request is present. -/
def progressUpdate (ctx : ProgressCtx) (msg : String) (progress : Option Nat)
    (d : Option (String ⊕ Resp)) : Resp :=
  let resp := (((reply ctx.req d).setTransitioning "yes").setTMessage msg).setTProgress
    progress
  match ctx.parent with
  | none => resp
  | some par =>
    (((reply par (some (Sum.inr resp))).setTransitioning "yes").setTMessage
      msg).setTProgress progress

/-- The publisher call as the worker/progress paths see it: `.error`
when `publisher.publish` raises, `.ok [r]` when it succeeds. -/
def publishAttempt (publishFault : Option String) (r : Resp) :
    Except String (List Resp) :=
  match publishFault with
  | some e => .error e
  | none => .ok [r]

/-- A whole `EventProgress.update` call including the publish: the
`try/except: pass` around `publisher.publish(resp)` swallows any publish
fault, so the call always returns normally with the list of responses
actually published. -/
def progressUpdateRun (ctx : ProgressCtx) (msg : String) (progress : Option Nat)
    (d : Option (String ⊕ Resp)) (publishFault : Option String) :
    Except String (List Resp) :=
  let resp := progressUpdate ctx msg progress d
  match publishAttempt publishFault resp with
  | .error _ => .ok []
  | .ok l => .ok l

/-! ## Run control flow (`EventClient._run`, event.py lines 152-212) -/

/-- How `_run` concludes: reaching `sys.exit(0)` after the `finally`
cleanup, or an exception propagating out of `_run` (skipping
`sys.exit(0)`). -/
inductive RunOutcome where
  | exitZero
  | raised (msg : String)
deriving DecidableEq

/-- Observable outcome of one `_run` invocation: how it ended, how many
children were spawned by `_start_children`, how many children had
`terminate` attempted in the `finally` block, and the final read-loop
counters. -/
structure RunResult where
  outcome : RunOutcome
  workersStarted : Nat
  terminatedAttempts : Nat
  finalCounters : LoopState
deriving DecidableEq

/-- `EventClient._run`: `requests.post` yields `status` / `statusText`;
a non-201 status raises `Exception("{} : {}".format(...))` before
`_start_children`, so the `finally` block iterates an empty
`self._children` and `sys.exit(0)` is never reached.  On 201,
`_start_children` spawns `workers` data workers plus the dedicated ping
worker, the read loop runs over the stream `evs` to completion or
`break`, and the `finally` block attempts `terminate` on every started
child before `sys.exit(0)`. -/
def eventRun (cfg : Config) (status : Nat) (statusText : String)
    (workers : Nat) (evs : List (String × Bool × Bool)) : RunResult :=
  if status = 201 then
    let fin := readRun cfg ⟨0, 0⟩ evs
    ⟨.exitZero, workers + 1, workers + 1, fin⟩
  else
    ⟨.raised (toString status ++ " : " ++ statusText), 0, 0, ⟨0, 0⟩⟩

/-! ## Helper lemmas -/

theorem readStep_dropCount_le (cfg : Config) (st : LoopState) (line : String)
    (full alive : Bool) :
    st.dropCount ≤ (readStep cfg st line full alive).st.dropCount := by
  unfold readStep
  dsimp only
  repeat' split
  all_goals simp

theorem readRun_dropCount_le (cfg : Config) (evs : List (String × Bool × Bool)) :
    ∀ st : LoopState, st.dropCount ≤ (readRun cfg st evs).dropCount := by
  induction evs with
  | nil => intro st; exact le_refl _
  | cons e rest ih =>
    intro st
    obtain ⟨line, full, alive⟩ := e
    simp only [readRun]
    split
    · exact readStep_dropCount_le cfg st line full alive
    · exact le_trans (readStep_dropCount_le cfg st line full alive) (ih _)

/-! ## Claims -/

/-- C1 (counterexample): the claim predicts that a dropped heartbeat
terminates the loop exactly when the ping-specific drop counter exceeds
the heartbeat drop maximum.  With `max_dropped_requests = 5`,
`max_dropped_ping = 1`, after one dropped data line ("x") and one
dropped heartbeat line, the code breaks (`drop_count = 2 >
max_dropped_ping = 1`) although the ping drop counter (1) does not
exceed the heartbeat maximum and the dropped line was not data — the
code compares the aggregate counter, not the ping-specific one. -/
theorem C1_counterexample :
    ((readStep ⟨5, 1⟩ (readStep ⟨5, 1⟩ ⟨0, 0⟩ "x" true true).st "\"ping\"" true
        true).brk = true) ∧
    ¬ ((isPing (pyStrip "\"ping\"") = true ∧
          (readStep ⟨5, 1⟩ (readStep ⟨5, 1⟩ ⟨0, 0⟩ "x" true true).st "\"ping\"" true
            true).st.ping_drop > (1 : Nat)) ∨
       (isPing (pyStrip "\"ping\"") = false ∧
          (readStep ⟨5, 1⟩ (readStep ⟨5, 1⟩ ⟨0, 0⟩ "x" true true).st "\"ping\"" true
            true).st.dropCount > (5 : Nat))) := by
  decide

/-- C1 (amended): on `QueueFull` for a non-empty line, the aggregate
drop counter is always incremented (heartbeat or data alike), the
ping-specific counter is additionally incremented for a heartbeat, and
the loop breaks exactly when the incremented aggregate count exceeds the
heartbeat drop maximum (heartbeat line) or the data drop maximum (data
line), or liveness fails after the line. -/
theorem C1_amended_drop_behavior (cfg : Config) (st : LoopState) (line : String)
    (alive : Bool) (h : 0 < (pyStrip line).length) :
    ((readStep cfg st line true alive).st.dropCount = st.dropCount + 1) ∧
    ((readStep cfg st line true alive).st.ping_drop =
      (if isPing (pyStrip line) then st.ping_drop + 1 else st.ping_drop)) ∧
    ((readStep cfg st line true alive).brk = true ↔
      (st.dropCount + 1 >
        (if isPing (pyStrip line) then cfg.max_dropped_ping
         else cfg.max_dropped_requests) ∨ alive = false)) := by
  unfold readStep
  dsimp only
  rw [if_pos h]
  refine ⟨?_, ?_, ?_⟩
  · cases hp : isPing (pyStrip line) <;> simp [hp] <;> split <;> rfl
  · cases hp : isPing (pyStrip line) <;> simp [hp] <;> split <;> rfl
  · cases hp : isPing (pyStrip line) <;> simp [hp] <;> split <;>
      simp_all [Bool.not_eq_true']

theorem C1_amended_drop_behavior_witness :
    0 < (pyStrip "x").length ∧
    (((readStep ⟨0, 0⟩ ⟨0, 0⟩ "x" true true).st.dropCount = 0 + 1) ∧
     ((readStep ⟨0, 0⟩ ⟨0, 0⟩ "x" true true).st.ping_drop =
       (if isPing (pyStrip "x") then 0 + 1 else 0)) ∧
     ((readStep ⟨0, 0⟩ ⟨0, 0⟩ "x" true true).brk = true ↔
       (0 + 1 >
         (if isPing (pyStrip "x") then (0 : Nat) else (0 : Nat)) ∨
        true = false))) :=
  ⟨by decide, C1_amended_drop_behavior ⟨0, 0⟩ ⟨0, 0⟩ "x" true (by decide)⟩

/-- C2 (counterexample): with the marker observed present at mtime 1,
then 2, then 1 again, the three `_check_ts` calls return
`[true, false, true]` with the cached stamp fixed at 1: the second check
detects the drift (false) but the third returns true again once the
mtime reverts to the cached value, so the check does not stay false
"regardless of later changes to the marker file". -/
theorem C2_counterexample :
    (checkRun ⟨none⟩ [some 1, some 2, some 1]).1 = [true, false, true] ∧
    (checkRun ⟨none⟩ [some 1, some 2, some 1]).2 = ⟨some 1⟩ := by
  decide

/-- C2 (amended): the first check that finds the marker present caches
its mtime and returns true; once the cache holds `c` it is never
updated; a later check returns false exactly when the marker is present
with an mtime different from `c` (and `_should_run` then returns false
on that same check) — so false persists only while the current mtime
differs from the cached value, not unconditionally. -/
theorem C2_amended_generation_check (c ts : Nat) (obs : Option Nat)
    (pid : Option Nat) (procAlive : Bool) :
    (check_ts ⟨none⟩ (some ts) = (true, ⟨some ts⟩)) ∧
    ((check_ts ⟨some c⟩ obs).2 = ⟨some c⟩) ∧
    ((check_ts ⟨some c⟩ obs).1 = false ↔ ∃ u, obs = some u ∧ u ≠ c) ∧
    ((check_ts ⟨some c⟩ obs).1 = false →
      (should_run ⟨some c⟩ obs pid procAlive).1 = false) := by
  refine ⟨rfl, ?_, ?_, ?_⟩
  · cases obs <;> rfl
  · cases obs with
    | none => simp [check_ts]
    | some u =>
      simp only [check_ts]
      constructor
      · intro hu
        exact ⟨u, rfl, fun he => by simp [he] at hu⟩
      · rintro ⟨v, hv, hne⟩
        cases hv
        simp [decide_eq_false_iff_not]
        exact fun he => hne he.symm
  · intro hfalse
    unfold should_run
    dsimp only
    rw [hfalse]
    rfl

/-- C5: a successful non-blocking enqueue of a heartbeat line resets the
ping drop counter to exactly zero from any prior value; a successful
enqueue of a data line leaves the counter state unchanged. -/
theorem C5_ping_drop_reset (cfg : Config) (st : LoopState) (line : String)
    (alive : Bool) (h : 0 < (pyStrip line).length) :
    ((isPing (pyStrip line) = true →
        (readStep cfg st line false alive).st.ping_drop = 0) ∧
     (isPing (pyStrip line) = false →
        (readStep cfg st line false alive).st = st)) := by
  unfold readStep
  dsimp only
  rw [if_pos h]
  constructor <;> intro hp <;> simp [hp]

theorem C5_ping_drop_reset_witness :
    0 < (pyStrip "\"ping\"").length ∧
    ((isPing (pyStrip "\"ping\"") = true →
        (readStep ⟨2, 3⟩ ⟨4, 7⟩ "\"ping\"" false true).st.ping_drop = 0) ∧
     (isPing (pyStrip "\"ping\"") = false →
        (readStep ⟨2, 3⟩ ⟨4, 7⟩ "\"ping\"" false true).st = ⟨4, 7⟩)) :=
  ⟨by decide, C5_ping_drop_reset ⟨2, 3⟩ ⟨4, 7⟩ "\"ping\"" true (by decide)⟩

/-- C7: a non-empty line containing `"ping` is only ever enqueued into
the ping queue and a non-empty line without it only into the data queue:
a successful put targets exactly the queue selected by the heartbeat
marker, and for any queue-full oracle value the recorded route is either
absent (dropped) or that same queue. -/
theorem C7_routing (cfg : Config) (st : LoopState) (line : String)
    (full alive : Bool) (h : 0 < (pyStrip line).length) :
    ((readStep cfg st line false alive).enq =
       some (if isPing (pyStrip line) then Route.ping else Route.data)) ∧
    ((readStep cfg st line full alive).enq = none ∨
     (readStep cfg st line full alive).enq =
       some (if isPing (pyStrip line) then Route.ping else Route.data)) := by
  have hsucc : (readStep cfg st line false alive).enq =
      some (if isPing (pyStrip line) then Route.ping else Route.data) := by
    unfold readStep
    dsimp only
    rw [if_pos h]
    cases hp : isPing (pyStrip line) <;> simp [hp]
  refine ⟨hsucc, ?_⟩
  cases full with
  | false => exact Or.inr hsucc
  | true =>
    left
    unfold readStep
    dsimp only
    rw [if_pos h]
    cases hp : isPing (pyStrip line) <;> simp [hp] <;> split <;> rfl

theorem C7_routing_witness :
    0 < (pyStrip "\"ping\"").length ∧
    (((readStep ⟨3, 3⟩ ⟨0, 0⟩ "\"ping\"" false true).enq =
       some (if isPing (pyStrip "\"ping\"") then Route.ping else Route.data)) ∧
     ((readStep ⟨3, 3⟩ ⟨0, 0⟩ "\"ping\"" true true).enq = none ∨
      (readStep ⟨3, 3⟩ ⟨0, 0⟩ "\"ping\"" true true).enq =
       some (if isPing (pyStrip "\"ping\"") then Route.ping else Route.data))) :=
  ⟨by decide, C7_routing ⟨3, 3⟩ ⟨0, 0⟩ "\"ping\"" true true (by decide)⟩

/-- C10: every overflow drop, heartbeat or data, increments the single
aggregate drop counter by one; the aggregate counter is never reset in a
run (monotonically non-decreasing over any event sequence); and the
break decision compares that aggregate counter against the configured
maximum selected by the kind of the dropped line. -/
theorem C10_aggregate_drop_counter (cfg : Config) (st : LoopState)
    (line : String) (alive : Bool) (evs : List (String × Bool × Bool))
    (h : 0 < (pyStrip line).length) :
    ((readStep cfg st line true alive).st.dropCount = st.dropCount + 1) ∧
    (st.dropCount ≤ (readRun cfg st evs).dropCount) ∧
    ((readStep cfg st line true true).brk = true ↔
      st.dropCount + 1 >
        (if isPing (pyStrip line) then cfg.max_dropped_ping
         else cfg.max_dropped_requests)) := by
  refine ⟨?_, readRun_dropCount_le cfg evs st, ?_⟩
  · unfold readStep
    dsimp only
    rw [if_pos h]
    cases hp : isPing (pyStrip line) <;> simp [hp] <;> split <;> rfl
  · unfold readStep
    dsimp only
    rw [if_pos h]
    cases hp : isPing (pyStrip line) <;> simp [hp] <;> split <;> simp_all

theorem C10_aggregate_drop_counter_witness :
    0 < (pyStrip "\"ping\"").length ∧
    (((readStep ⟨5, 1⟩ ⟨1, 0⟩ "\"ping\"" true true).st.dropCount = 1 + 1) ∧
     ((1 : Nat) ≤ (readRun ⟨5, 1⟩ ⟨1, 0⟩ [("x", true, true)]).dropCount) ∧
     ((readStep ⟨5, 1⟩ ⟨1, 0⟩ "\"ping\"" true true).brk = true ↔
       1 + 1 >
         (if isPing (pyStrip "\"ping\"") then (1 : Nat) else (5 : Nat)))) :=
  ⟨by decide,
   C10_aggregate_drop_counter ⟨5, 1⟩ ⟨1, 0⟩ "\"ping\"" true [("x", true, true)]
     (by decide)⟩

/-- C3: on an unknown fault with liveness intact, a decoded Request
yields exactly one published Response keyed to the Request's id with
transitioning "error" and a message combining the fresh error id with
the fault description, and the loop continues; when no Request was
decoded (marshaller failure), nothing is published. -/
theorem C3_unknown_fault_reply (l d eid dd pfd : String) (req : Request)
    (execR : Except Fault (Option Resp)) (pf epf : Bool) :
    ((workerIter (some l) (.ok req) (.error (.unknown d)) pfd pf false eid
        true).published =
      [Resp.mk req.id (some "error") none (some (eid ++ " : " ++ d)) none none]) ∧
    ((workerIter (some l) (.ok req) (.error (.unknown d)) pfd pf false eid
        true).res = .cont) ∧
    ((workerIter (some l) (.error dd) execR pfd pf epf eid true).published = []) :=
  ⟨rfl, rfl, rfl⟩

/-- C4 (counterexample): an iteration with liveness intact (`alive =
true`) whose execution raises an unknown fault and whose synthesized
error-Response publish itself raises ends in `crash`: the fault
propagates out of the worker loop (the `publisher.publish` at event.py
line 119 sits inside the `except Exception` handler with no further
guard), so a single item's faults can terminate the worker even though
no liveness check failed. -/
theorem C4_counterexample :
    (workerIter (some "l") (.ok ⟨"id1", "nm"⟩) (.error (.unknown "boom")) ""
      false true "eid" true).res = .crash := rfl

/-- C4 (amended): provided the publish of a synthesized error Response
does not itself fault, no single item's fault makes the worker exit:
the iteration never crashes, and it breaks out of the loop only when the
liveness check failed. -/
theorem C4_amended_containment (item : Option String)
    (dr : Except String Request) (er : Except Fault (Option Resp))
    (pfd eid : String) (pf alive : Bool) :
    ((workerIter item dr er pfd pf false eid alive).res ≠ .crash) ∧
    ((workerIter item dr er pfd pf false eid alive).res = .brk →
      alive = false) := by
  cases item with
  | none => cases alive <;> simp [workerIter]
  | some s =>
    cases dr with
    | error d => cases alive <;> simp [workerIter]
    | ok req =>
      cases er with
      | error f => cases f <;> cases alive <;> simp [workerIter]
      | ok o => cases o <;> cases alive <;> cases pf <;> simp [workerIter]

/-- C6: a handshake status other than 201 makes `_run` abort before
`_start_children`: zero workers started, zero terminate attempts, and
the abort surfaces as a raised exception (formatted from the status and
body) instead of `sys.exit(0)`; while with status 201 every run over any
finite stream (overload break, liveness break, or stream end) concludes
with exit status zero. -/
theorem C6_handshake_and_exit (cfg : Config) (status : Nat) (stext : String)
    (workers : Nat) (evs : List (String × Bool × Bool)) (h : status ≠ 201) :
    ((eventRun cfg status stext workers evs).workersStarted = 0 ∧
     (eventRun cfg status stext workers evs).terminatedAttempts = 0 ∧
     (eventRun cfg status stext workers evs).outcome =
       .raised (toString status ++ " : " ++ stext)) ∧
    ((eventRun cfg 201 stext workers evs).outcome = .exitZero) := by
  constructor
  · unfold eventRun
    rw [if_neg h]
    exact ⟨rfl, rfl, rfl⟩
  · unfold eventRun
    rw [if_pos rfl]

theorem C6_handshake_and_exit_witness :
    (500 : Nat) ≠ 201 ∧
    (((eventRun ⟨1, 1⟩ 500 "err" 20 []).workersStarted = 0 ∧
      (eventRun ⟨1, 1⟩ 500 "err" 20 []).terminatedAttempts = 0 ∧
      (eventRun ⟨1, 1⟩ 500 "err" 20 []).outcome =
        .raised (toString (500 : Nat) ++ " : " ++ "err")) ∧
     ((eventRun ⟨1, 1⟩ 201 "err" 20 []).outcome = .exitZero)) :=
  ⟨by decide, C6_handshake_and_exit ⟨1, 1⟩ 500 "err" 20 [] (by decide)⟩

/-- C8: when execution raises the recoverable lock-contention fault
(`FailedToLock`) and liveness holds, the iteration publishes nothing,
logs one informational line carrying the request name, and continues
the loop.  (The drop counters are locals of `EventClient._run`; the
worker has no access to them, so they are untouched by construction.) -/
theorem C8_failed_to_lock (l pfd eid d : String) (req : Request)
    (pf epf : Bool) :
    workerIter (some l) (.ok req) (.error (.failedToLock d)) pfd pf epf eid
        true =
      ⟨.cont, [], [d ++ " for " ++ req.name]⟩ := rfl

/-- C9: a progress update with a parent request publishes the child
reply (keyed to the originating request, transitioning "yes", with the
given message and progress) wrapped again as a reply keyed to the
parent, the outer layer carrying the same transitioning, message, and
progress values; and any publish failure is swallowed: the call always
returns normally (publishing nothing when the publish raised). -/
theorem C9_progress_nesting (req par : Request) (msg : String)
    (prog : Option Nat) (d : Option (String ⊕ Resp))
    (pfault : Option String) :
    (progressUpdate ⟨req, some par⟩ msg prog d =
      Resp.mk par.id (some "yes") (some msg) none prog
        (some (Sum.inr (Resp.mk req.id (some "yes") (some msg) none prog
          d)))) ∧
    (∃ out, progressUpdateRun ⟨req, some par⟩ msg prog d pfault = .ok out) ∧
    (progressUpdateRun ⟨req, some par⟩ msg prog d (some "publish boom") =
      .ok []) := by
  refine ⟨rfl, ?_, rfl⟩
  cases pfault <;> exact ⟨_, rfl⟩

end Cattle
